import Mathlib

/-!
Shallow embedding of `drivers/thermal/gpu_cooling.c` (Amlogic gpufreq
cooling device) and proofs of the specification claims.

Machine integers: `unsigned long` is 64 bits on this arm64 target, so its
values are naturals taken modulo `2 ^ 64`; `unsigned int` is 32 bits.
External callbacks (`get_gpu_max_level`, `get_gpu_current_max_level`,
`set_gpu_freq_idx`) are pure in this code, so each query callback is
modelled by the value it returns, and the level-request callback by
recording the argument it is invoked with (or `none` when not invoked).
-/

namespace GpuCooling

/-- Modulus of `unsigned long` (64-bit). -/
def wordMod : Nat := 2 ^ 64

/-- Modulus of `unsigned int` (32-bit). -/
def uintMod : Nat := 2 ^ 32

theorem wordMod_eq : wordMod = 18446744073709551616 := by norm_num [wordMod]

theorem uintMod_eq : uintMod = 4294967296 := by norm_num [uintMod]

/-- Wrapping subtraction on `unsigned long` values: `a - b` mod `2 ^ 64`. -/
def usub (a b : Nat) : Nat := (a % wordMod + (wordMod - b % wordMod)) % wordMod

/-- Linux `-EINVAL` error code. -/
def EINVAL : Int := 22

/-- The cooling device record (`struct gpufreq_cooling_device`, declared in
`linux/gpu_cooling.h`; field model follows the spec's data model).
Query callbacks are modelled by the value they return; `set_gpu_freq_idx` by
whether it is present. `cool_dev` is the handle from the external registry. -/
structure GpufreqCoolingDevice where
  id : Nat
  gpufreq_state : Nat
  get_gpu_max_level : Option Nat
  get_gpu_current_max_level : Option Nat
  has_set_gpu_freq_idx : Bool
  cool_dev : Option String
  deriving Repr, DecidableEq

/-- Source translation of `gpufreq_get_max_state`: `state0` is the value the
caller left in `*state`; if `get_gpu_max_level` is present, `*state` is set to
its value cast to `unsigned long`, else it is left unchanged. Returns the
final `*state` together with the C return value (always 0). -/
def gpufreq_get_max_state (dev : GpufreqCoolingDevice) (state0 : Nat) :
    Nat × Int :=
  match dev.get_gpu_max_level with
  | some m => (m % wordMod, 0)
  | none => (state0, 0)

/-- Source translation of `gpufreq_get_cur_state`: a local `max_state = 0` is
filled by `gpufreq_get_max_state`; if `get_gpu_current_max_level` is present,
`*state = (max_state - 1) - temp` in `unsigned long` arithmetic and 0 is
returned, else `*state` keeps the caller value and `-EINVAL` is returned. -/
def gpufreq_get_cur_state (dev : GpufreqCoolingDevice) (state0 : Nat) :
    Nat × Int :=
  let max_state := (gpufreq_get_max_state dev 0).1
  match dev.get_gpu_current_max_level with
  | some temp => (usub (usub max_state 1) temp, 0)
  | none => (state0, -EINVAL)

/-- Outcome of `gpufreq_set_cur_state`: the updated device, the argument
passed to `set_gpu_freq_idx` (`none` when the callback was not invoked), and
the C return value. -/
structure SetCurStateResult where
  dev : GpufreqCoolingDevice
  invoked : Option Nat
  ret : Int
  deriving Repr, DecidableEq

/-- Source translation of `gpufreq_set_cur_state`: stores
`gpufreq_state = state` unconditionally, computes `state = max_state-1-state`
in `unsigned long` arithmetic, and invokes `set_gpu_freq_idx` with the result
cast to `unsigned int` when `state >= 0 && state <= max_state` (the first
conjunct is vacuous for an unsigned value) and the callback is present.
Returns 0 always. -/
def gpufreq_set_cur_state (dev : GpufreqCoolingDevice) (state : Nat) :
    SetCurStateResult :=
  let dev' := { dev with gpufreq_state := state }
  let max_state := (gpufreq_get_max_state dev' 0).1
  let level := usub (usub max_state 1) state
  let invoked :=
    if level ≤ max_state then
      if dev'.has_set_gpu_freq_idx then some (level % uintMod) else none
    else none
  ⟨dev', invoked, 0⟩

/-- Modelled from the spec: the kernel identifier allocator backing
`idr_alloc(idr, NULL, 0, 0, GFP_KERNEL)` and `idr_remove` is kernel code
outside this file's source; per the spec it is a process-wide map of in-use
small integers with first-fit allocation. The in-use set is a `List Nat`;
`firstFreeFrom` scans upward for the smallest free id (fuel
`used.length + 1` always suffices, since among `0 .. used.length` some id is
free). -/
def firstFreeFrom (used : List Nat) : Nat → Nat → Nat
  | 0, n => n
  | fuel + 1, n => if used.contains n then firstFreeFrom used fuel (n + 1) else n

/-- Smallest non-negative identifier not in `used` (first-fit policy). -/
def firstFree (used : List Nat) : Nat := firstFreeFrom used (used.length + 1) 0

/-- Modelled from the spec: `idr_alloc` returns the smallest free id and marks
it in use; `exhausted` models the `AllocationExhausted` failure (negative
return), in which case the id space is untouched. -/
def idr_alloc (used : List Nat) (exhausted : Bool) : Int × List Nat :=
  if exhausted then (-28, used)
  else (Int.ofNat (firstFree used), firstFree used :: used)

/-- Modelled from the spec: `idr_remove` marks `id` free again. -/
def idr_remove (used : List Nat) (id : Nat) : List Nat := used.erase id

/-- Source translation of `get_idr`: calls `idr_alloc` under the lock; on
negative return propagates the error, otherwise stores the id through `*id`
and returns 0. Result: (return value, allocated id if any, new id space). -/
def get_idr (used : List Nat) (exhausted : Bool) :
    Int × Option Nat × List Nat :=
  let r := idr_alloc used exhausted
  if r.1 < 0 then (r.1, none, r.2)
  else (0, some r.1.toNat, r.2)

/-- Source translation of `release_idr`: removes `id` under the lock. -/
def release_idr (used : List Nat) (id : Nat) : List Nat := idr_remove used id

/-- Device name built by `snprintf(dev_name, ..., "thermal-gpufreq-%d", id)`. -/
def dev_name (id : Nat) : String := "thermal-gpufreq-" ++ toString id

/-- Outcome of `gpufreq_cooling_register`: the C return value, the identifier
space after the call, the device if its memory is still alive (`none` after
`kfree`), whether `kfree(gpufreq_dev)` was called, and the name the device
was published under in the external registry (if it stayed published). -/
structure RegisterResult where
  ret : Int
  used : List Nat
  dev : Option GpufreqCoolingDevice
  freed : Bool
  published : Option String
  deriving Repr, DecidableEq

/-- Source translation of `gpufreq_cooling_register`. `alloc_exhausted`
models the id allocator failing; `publish_fails` models
`thermal_cooling_device_register` (the external registry) returning NULL.
On allocation failure: `kfree(gpufreq_dev)` and return `-EINVAL`. On
publication failure: `release_idr`, `kfree(gpufreq_dev)` and return
`-EINVAL`. On success: store the registry handle, set `gpufreq_state = 0`,
return 0. -/
def gpufreq_cooling_register (alloc_exhausted publish_fails : Bool)
    (used : List Nat) (dev : GpufreqCoolingDevice) : RegisterResult :=
  let g := get_idr used alloc_exhausted
  match g.2.1 with
  | none => ⟨-EINVAL, g.2.2, none, true, none⟩
  | some id =>
    let devA := { dev with id := id }
    let name := dev_name id
    if publish_fails then
      ⟨-EINVAL, release_idr g.2.2 id, none, true, none⟩
    else
      ⟨0, g.2.2, some { devA with cool_dev := some name, gpufreq_state := 0 },
        false, some name⟩

/-- Source translation of `gpufreq_cooling_unregister`: no-op on a null
pointer; otherwise unpublishes from the registry, releases the identifier and
frees the device. Returns the identifier space after the call. -/
def gpufreq_cooling_unregister (used : List Nat)
    (cdev : Option GpufreqCoolingDevice) : List Nat :=
  match cdev with
  | none => used
  | some dev => release_idr used dev.id

/-- Source translation of `register_gpu_freq_info` acting on the global slot
`gpu_freq_callback` (modelled by its current optional value): a non-null
`fun` overwrites the slot, a null one leaves it unchanged; returns 0. -/
def register_gpu_freq_info {α : Type} (slot : Option α) (f : Option α) :
    Option α × Int :=
  match f with
  | some g => (some g, 0)
  | none => (slot, 0)

end GpuCooling

namespace GpuCooling

/-! Helper lemmas about wrapping subtraction, and sample devices shared by
the concrete scenarios. -/

theorem usub_of_le (a b : Nat) (ha : a < wordMod) (h : b ≤ a) :
    usub a b = a - b := by
  rw [wordMod_eq] at ha
  simp only [usub, wordMod_eq]
  omega

theorem usub_of_gt (a b : Nat) (ha : a < wordMod) (hb : b < wordMod)
    (h : a < b) : usub a b = wordMod + a - b := by
  rw [wordMod_eq] at ha hb
  simp only [usub, wordMod_eq]
  omega

theorem set_cur_state_eq (dev : GpufreqCoolingDevice) (M s : Nat)
    (hM : dev.get_gpu_max_level = some M) (hMw : M < wordMod) :
    gpufreq_set_cur_state dev s =
      ⟨{ dev with gpufreq_state := s },
        if usub (usub M 1) s ≤ M then
          if dev.has_set_gpu_freq_idx then some (usub (usub M 1) s % uintMod)
          else none
        else none, 0⟩ := by
  simp only [gpufreq_set_cur_state, gpufreq_get_max_state, hM,
    Nat.mod_eq_of_lt hMw]

/-- Sample device of the spec's scenario: `max_level_query → 4`,
`current_level_query → 1`, level-request callback present. -/
def devM4L1 : GpufreqCoolingDevice := ⟨0, 0, some 4, some 1, true, none⟩

/-- C1: for every registered cooling device whose `max_level_query` returns
M and whose `current_level_query` returns L (with L a valid level, i.e.
`L ≤ M - 1`, and `1 ≤ M < 2 ^ 64`), `get_max_state` returns status ok with
state M and `get_cur_state` returns status ok with state `(M - 1) - L`. -/
theorem C1_get_cur_state_inversion (dev : GpufreqCoolingDevice) (M L d : Nat)
    (hM : dev.get_gpu_max_level = some M)
    (hL : dev.get_gpu_current_max_level = some L)
    (h1 : 1 ≤ M) (hMw : M < wordMod) (hLM : L ≤ M - 1) :
    gpufreq_get_max_state dev d = (M, 0) ∧
    gpufreq_get_cur_state dev d = (M - 1 - L, 0) := by
  constructor
  · simp [gpufreq_get_max_state, hM, Nat.mod_eq_of_lt hMw]
  · simp only [gpufreq_get_cur_state, gpufreq_get_max_state, hM, hL]
    rw [Nat.mod_eq_of_lt hMw, usub_of_le M 1 hMw h1,
      usub_of_le (M - 1) L (by omega) hLM]

/-- C1 witness: with `max_level_query → 4` and `current_level_query → 1`,
`get_max_state` returns 4 and `get_cur_state` returns `4 - 1 - 1 = 2`. -/
theorem C1_witness :
    gpufreq_get_max_state devM4L1 7 = (4, 0) ∧
    gpufreq_get_cur_state devM4L1 7 = (2, 0) :=
  C1_get_cur_state_inversion devM4L1 4 1 7 rfl rfl (by decide)
    (by rw [wordMod_eq]; omega) (by decide)

/-- C2 (amended): with `set_level_request` present and `max_level_query`
returning M (`1 ≤ M < 2 ^ 32`), `set_cur_state s` for `M < s < 2 ^ 64 - 1`
never invokes `set_level_request`; at `s = 2 ^ 64 - 1` the wrapped level is
exactly M, which passes the `≤ max_state` bound, so the callback IS invoked
with level M; `set_cur_state 0` invokes it with level `M - 1`; and
`set_cur_state (M - 1)` invokes it with level 0. -/
theorem C2_set_cur_state_boundary (dev : GpufreqCoolingDevice) (M s : Nat)
    (hM : dev.get_gpu_max_level = some M)
    (hset : dev.has_set_gpu_freq_idx = true)
    (h1 : 1 ≤ M) (hMu : M < uintMod) :
    (M < s → s < wordMod - 1 →
      (gpufreq_set_cur_state dev s).invoked = none) ∧
    (gpufreq_set_cur_state dev (wordMod - 1)).invoked = some M ∧
    (gpufreq_set_cur_state dev 0).invoked = some (M - 1) ∧
    (gpufreq_set_cur_state dev (M - 1)).invoked = some 0 := by
  rw [uintMod_eq] at hMu
  have hMw : M < wordMod := by rw [wordMod_eq]; omega
  have hW := wordMod_eq
  have hU := uintMod_eq
  have h1' : usub M 1 = M - 1 := usub_of_le M 1 hMw h1
  refine ⟨?_, ?_, ?_, ?_⟩
  · intro hs1 hs2
    rw [set_cur_state_eq dev M s hM hMw, h1']
    have hlev : usub (M - 1) s = wordMod + (M - 1) - s :=
      usub_of_gt (M - 1) s (by omega) (by omega) (by omega)
    simp only [hlev]
    rw [if_neg (by omega)]
  · rw [set_cur_state_eq dev M (wordMod - 1) hM hMw, h1']
    have hlev : usub (M - 1) (wordMod - 1) = wordMod + (M - 1) - (wordMod - 1) :=
      usub_of_gt (M - 1) (wordMod - 1) (by omega) (by omega) (by omega)
    have hlev' : usub (M - 1) (wordMod - 1) = M := by omega
    rw [hlev', if_pos (by omega), if_pos hset, Nat.mod_eq_of_lt (by omega)]
  · rw [set_cur_state_eq dev M 0 hM hMw, h1']
    have hlev : usub (M - 1) 0 = M - 1 := usub_of_le (M - 1) 0 (by omega) (by omega)
    rw [hlev, if_pos (by omega), if_pos hset, Nat.mod_eq_of_lt (by omega)]
  · rw [set_cur_state_eq dev M (M - 1) hM hMw, h1']
    have hlev : usub (M - 1) (M - 1) = 0 := by
      rw [usub_of_le (M - 1) (M - 1) (by omega) (by omega)]
      omega
    rw [hlev, if_pos (by omega), if_pos hset]
    simp

/-- C2 witness: for the sample device (M = 4), `set_cur_state 5` does not
invoke the callback, `set_cur_state (2 ^ 64 - 1)` invokes it with 4,
`set_cur_state 0` with 3, and `set_cur_state 3` with 0. -/
theorem C2_witness :
    (gpufreq_set_cur_state devM4L1 5).invoked = none ∧
    (gpufreq_set_cur_state devM4L1 (wordMod - 1)).invoked = some 4 ∧
    (gpufreq_set_cur_state devM4L1 0).invoked = some (4 - 1) ∧
    (gpufreq_set_cur_state devM4L1 (4 - 1)).invoked = some 0 :=
  have h := C2_set_cur_state_boundary devM4L1 4 5 rfl rfl (by decide)
    (by rw [uintMod_eq]; omega)
  ⟨h.1 (by decide) (by rw [wordMod_eq]; omega), h.2.1, h.2.2.1, h.2.2.2⟩

/-- C2 counterexample: `s = 2 ^ 64 - 1` is greater than `M = 4`, yet
`set_cur_state s` DOES invoke `set_gpu_freq_idx` (with level 4): the
unsigned computation `max_state - 1 - s` wraps all the way back into the
accepted range, so "s > M never invokes the callback" is false. -/
theorem C2_counterexample :
    4 < 2 ^ 64 - 1 ∧
    (gpufreq_set_cur_state devM4L1 (2 ^ 64 - 1)).invoked = some 4 := by
  constructor
  · norm_num
  · decide

/-- C3 counterexample: when identifier allocation is exhausted, `register`
returns `-EINVAL` but it also calls `kfree(gpufreq_dev)` itself, so the
device's memory does NOT stay with the caller for disposal. -/
theorem C3_counterexample :
    (gpufreq_cooling_register true false [] devM4L1).ret = -EINVAL ∧
    (gpufreq_cooling_register true false [] devM4L1).freed = true := by
  constructor <;> rfl

/-- C3 (amended): when identifier allocation is exhausted, `register`
returns an `-EINVAL` failure, the id space is unchanged, nothing was
published, and `register` frees the device's memory itself — the caller
must not dispose of it again. -/
theorem C3_register_alloc_exhausted (pf : Bool) (used : List Nat)
    (dev : GpufreqCoolingDevice) :
    (gpufreq_cooling_register true pf used dev).ret = -EINVAL ∧
    (gpufreq_cooling_register true pf used dev).used = used ∧
    (gpufreq_cooling_register true pf used dev).published = none ∧
    (gpufreq_cooling_register true pf used dev).dev = none ∧
    (gpufreq_cooling_register true pf used dev).freed = true := by
  refine ⟨rfl, rfl, rfl, rfl, rfl⟩

/-- C4: when the identifier is allocated but publication into the external
registry fails, `register` releases the identifier (the id-space state is
exactly the pre-call one), returns `-EINVAL`, and leaves the device neither
published nor half-registered (its memory is freed). -/
theorem C4_register_publish_failure (used : List Nat)
    (dev : GpufreqCoolingDevice) :
    (gpufreq_cooling_register false true used dev).ret = -EINVAL ∧
    (gpufreq_cooling_register false true used dev).used = used ∧
    (gpufreq_cooling_register false true used dev).published = none ∧
    (gpufreq_cooling_register false true used dev).dev = none := by
  have hu : (gpufreq_cooling_register false true used dev).used = used := by
    simp only [gpufreq_cooling_register, get_idr, idr_alloc, release_idr,
      idr_remove, Bool.false_eq_true, if_false, if_true,
      if_neg (by simp : ¬ ((Int.ofNat (firstFree used)) < 0))]
    simp [List.erase_cons_head]
  refine ⟨rfl, hu, rfl, rfl⟩

/-- C5: for every device and every requested state s, `set_cur_state`
returns status ok and stores `gpufreq_state = s` unconditionally — also when
the level-request callback is absent or the computed level is out of
range. -/
theorem C5_set_cur_state_total (dev : GpufreqCoolingDevice) (s : Nat) :
    (gpufreq_set_cur_state dev s).ret = 0 ∧
    (gpufreq_set_cur_state dev s).dev = { dev with gpufreq_state := s } :=
  ⟨rfl, rfl⟩

/-- C6: `get_max_state` always returns status ok; with `max_level_query`
absent the output state is the caller-provided default unchanged, with it
present the output state is the callback's value. -/
theorem C6_get_max_state (dev : GpufreqCoolingDevice) (d m : Nat) :
    (dev.get_gpu_max_level = none → gpufreq_get_max_state dev d = (d, 0)) ∧
    (dev.get_gpu_max_level = some m → m < wordMod →
      gpufreq_get_max_state dev d = (m, 0)) := by
  constructor
  · intro h
    simp [gpufreq_get_max_state, h]
  · intro h hm
    simp [gpufreq_get_max_state, h, Nat.mod_eq_of_lt hm]

/-- C6 witness: with the callback absent the caller default 7 survives with
status ok; with the callback returning 4 the state is 4 with status ok. -/
theorem C6_witness :
    gpufreq_get_max_state ⟨0, 0, none, some 1, true, none⟩ 7 = (7, 0) ∧
    gpufreq_get_max_state devM4L1 7 = (4, 0) :=
  ⟨(C6_get_max_state ⟨0, 0, none, some 1, true, none⟩ 7 4).1 rfl,
   (C6_get_max_state devM4L1 7 4).2 rfl (by rw [wordMod_eq]; omega)⟩

/-- First registration of the C7 scenario, starting from an empty id space. -/
def reg1 : RegisterResult := gpufreq_cooling_register false false [] devM4L1

/-- Second registration of the C7 scenario. -/
def reg2 : RegisterResult := gpufreq_cooling_register false false reg1.used devM4L1

/-- Identifier space after unregistering the first device of the scenario. -/
def usedAfterUnreg1 : List Nat := gpufreq_cooling_unregister reg2.used reg1.dev

/-- Third registration of the C7 scenario, after the first device is gone. -/
def reg3 : RegisterResult :=
  gpufreq_cooling_register false false usedAfterUnreg1 devM4L1

/-- C7: first-fit with immediate reuse — two registrations in sequence
publish names `thermal-gpufreq-0` and `thermal-gpufreq-1`; after the first
device is unregistered, a third registration reuses identifier 0. -/
theorem C7_first_fit_reuse :
    reg1.published = some "thermal-gpufreq-0" ∧
    reg2.published = some "thermal-gpufreq-1" ∧
    reg3.published = some "thermal-gpufreq-0" ∧
    Option.map (fun dv => dv.id) reg3.dev = some 0 := by
  refine ⟨rfl, rfl, rfl, rfl⟩

/-- C8: `register_gpu_freq_info` always returns 0; a non-null callback
overwrites the slot, a null callback leaves it unchanged, and in particular
installing A and then null still leaves A observable. -/
theorem C8_callback_slot (slot : Option Nat) (a : Nat) :
    register_gpu_freq_info slot (some a) = (some a, 0) ∧
    register_gpu_freq_info slot (none : Option Nat) = (slot, 0) ∧
    (register_gpu_freq_info (register_gpu_freq_info slot (some a)).1
      (none : Option Nat)).1 = some a :=
  ⟨rfl, rfl, rfl⟩

/-- C9: `requested_state` is never fed back into the level queries — two
devices differing only in `gpufreq_state` give identical results (state and
status) for `get_max_state` and `get_cur_state`. -/
theorem C9_requested_state_noninterference (i s1 s2 : Nat)
    (mq cq : Option Nat) (hs : Bool) (cd : Option String) (d : Nat) :
    gpufreq_get_max_state ⟨i, s1, mq, cq, hs, cd⟩ d
      = gpufreq_get_max_state ⟨i, s2, mq, cq, hs, cd⟩ d ∧
    gpufreq_get_cur_state ⟨i, s1, mq, cq, hs, cd⟩ d
      = gpufreq_get_cur_state ⟨i, s2, mq, cq, hs, cd⟩ d :=
  ⟨rfl, rfl⟩

/-- C10: with `max_level_query` absent but `current_level_query` returning
L, `get_cur_state` still returns status ok, the internal `max_state`
defaults to 0, and the returned state wraps to `2 ^ 64 - 1 - L`. -/
theorem C10_missing_max_wraps (i s : Nat) (hs : Bool) (cd : Option String)
    (d L : Nat) (hL : L < wordMod) :
    gpufreq_get_cur_state ⟨i, s, none, some L, hs, cd⟩ d
      = (wordMod - 1 - L, 0) := by
  have hW := wordMod_eq
  have h01 : usub 0 1 = wordMod - 1 := by
    rw [usub_of_gt 0 1 (by omega) (by omega) (by omega)]
    omega
  simp only [gpufreq_get_cur_state, gpufreq_get_max_state]
  rw [h01, usub_of_le (wordMod - 1) L (by omega) (by omega)]

/-- C10 witness: with `max_level_query` absent and `current_level_query`
returning 1, `get_cur_state` returns `(2 ^ 64 - 1 - 1, ok)`. -/
theorem C10_witness :
    gpufreq_get_cur_state ⟨0, 0, none, some 1, true, none⟩ 7
      = (wordMod - 1 - 1, 0) :=
  C10_missing_max_wraps 0 0 true none 7 1 (by rw [wordMod_eq]; omega)

end GpuCooling
